import Mathlib

/-
  Verification development for the Settlers-of-Mars game client.

  Shallow embedding of:
  - the story service layer of src/components/GameUI.tsx (generateStory,
    generateImage, fetchNextScene, and the module-level API-key check),
  - the data model of types.ts (ScenePayload, Scene, HabitatPart),
  - the GameUI choice-rendering logic,
  - the HabitatViewer reconciliation and geometry-construction logic.

  Modelling conventions:
  - JS strings are Lean Strings; character-level operations work on s.data.
  - The runtime JSON values produced by JSON.parse are modelled by the
    inductive type Json; JSON numbers are modelled as exact rationals.
  - The generative backends are opaque request/response services: each is
    modelled as a prescribed response value passed as a parameter, and the
    requests actually issued are recorded in an event trace.
  - Angles passed to three.js geometry constructors are exact rational
    multiples of pi (the source only ever uses 0, 2*pi and pi/2).
-/

/-- Runtime JSON values, as produced by JSON.parse. -/
inductive Json where
  | null
  | bool (b : Bool)
  | num (q : ℚ)
  | str (s : String)
  | arr (elems : List Json)
  | obj (fields : List (String × Json))

/-- Replace the value of key k in place if present, otherwise append;
this is the JS object semantics for a repeated key (last value wins,
first position kept). -/
def Json.setField : List (String × Json) → String → Json → List (String × Json)
  | [], k, v => [(k, v)]
  | (k0, v0) :: rest, k, v =>
    if k0 = k then (k0, v) :: rest else (k0, v0) :: Json.setField rest k v

/-- Look up a key in an object field list. -/
def Json.lookupField : List (String × Json) → String → Option Json
  | [], _ => none
  | (k0, v0) :: rest, k => if k0 = k then some v0 else Json.lookupField rest k

/-- JS property access on a JSON value: a missing field (or access on a
non-object) is undefined, modelled as none. -/
def Json.getField (j : Json) (k : String) : Option Json :=
  match j with
  | .obj fields => Json.lookupField fields k
  | _ => none

/-- The whitespace characters JSON.parse skips between tokens. -/
def isJsonWs (c : Char) : Bool :=
  c = ' ' || c = '\t' || c = '\n' || c = '\r'

/-- Skip JSON inter-token whitespace. -/
def skipWs (cs : List Char) : List Char := cs.dropWhile isJsonWs

/-- Value of a hexadecimal digit. -/
def hexDigitVal (c : Char) : Option Nat :=
  if '0' ≤ c ∧ c ≤ '9' then some (c.toNat - 48)
  else if 'a' ≤ c ∧ c ≤ 'f' then some (c.toNat - 87)
  else if 'A' ≤ c ∧ c ≤ 'F' then some (c.toNat - 55)
  else none

/-- Single-character JSON string escapes. -/
def escapeChar (c : Char) : Option Char :=
  if c = '"' then some '"'
  else if c = '\\' then some '\\'
  else if c = '/' then some '/'
  else if c = 'b' then some (Char.ofNat 8)
  else if c = 'f' then some (Char.ofNat 12)
  else if c = 'n' then some '\n'
  else if c = 'r' then some '\r'
  else if c = 't' then some '\t'
  else none

/-- Body of a JSON string literal, after the opening quote: read
characters up to the closing quote, decoding escapes. -/
def parseStringBody (fuel : Nat) (cs : List Char) (acc : List Char) :
    Option (String × List Char) :=
  match fuel with
  | 0 => none
  | f + 1 =>
    match cs with
    | [] => none
    | c :: rest =>
      if c = '"' then some (⟨acc.reverse⟩, rest)
      else if c = '\\' then
        match rest with
        | 'u' :: h1 :: h2 :: h3 :: h4 :: rest2 =>
          match hexDigitVal h1, hexDigitVal h2, hexDigitVal h3, hexDigitVal h4 with
          | some a, some b, some c2, some d =>
            parseStringBody f rest2 (Char.ofNat (((a * 16 + b) * 16 + c2) * 16 + d) :: acc)
          | _, _, _, _ => none
        | e :: rest2 =>
          match escapeChar e with
          | some ec => parseStringBody f rest2 (ec :: acc)
          | none => none
        | [] => none
      else parseStringBody f rest (c :: acc)

/-- Numeric value of a digit list. -/
def digitsVal (ds : List Char) : Nat :=
  ds.foldl (fun n c => n * 10 + (c.toNat - 48)) 0

/-- Optional fraction part of a JSON number: digits after a decimal
point; a point with no digit is a syntax error. -/
def parseFracPart (cs : List Char) : Option (List Char × List Char) :=
  match cs with
  | '.' :: r =>
    let ds := r.takeWhile Char.isDigit
    if ds.isEmpty then none else some (ds, r.dropWhile Char.isDigit)
  | _ => some ([], cs)

/-- Optional exponent part of a JSON number: (exponent negative, digits, rest). -/
def parseExpPart (cs : List Char) : Option (Bool × List Char × List Char) :=
  match cs with
  | c :: r =>
    if c = 'e' ∨ c = 'E' then
      let signedRest : Bool × List Char :=
        match r with
        | '-' :: rr => (true, rr)
        | '+' :: rr => (false, rr)
        | _ => (false, r)
      let ds := signedRest.2.takeWhile Char.isDigit
      if ds.isEmpty then none
      else some (signedRest.1, ds, signedRest.2.dropWhile Char.isDigit)
    else some (false, [], cs)
  | [] => some (false, [], cs)

/-- A JSON number: optional minus, integer digits with no leading zero,
optional fraction, optional exponent; value as an exact rational. -/
def parseNumber (cs : List Char) : Option (ℚ × List Char) :=
  let signed : Bool × List Char :=
    match cs with
    | '-' :: r => (true, r)
    | _ => (false, cs)
  let intDs := signed.2.takeWhile Char.isDigit
  if intDs.isEmpty then none
  else if 1 < intDs.length ∧ intDs.headD ' ' = '0' then none
  else
    match parseFracPart (signed.2.dropWhile Char.isDigit) with
    | none => none
    | some (fracDs, cs3) =>
      match parseExpPart cs3 with
      | none => none
      | some (negE, expDs, cs4) =>
        let mantissa : ℚ :=
          (digitsVal intDs : ℚ) + (digitsVal fracDs : ℚ) / ((10 : ℚ) ^ fracDs.length)
        let scaled : ℚ :=
          if negE then mantissa / (10 : ℚ) ^ digitsVal expDs
          else mantissa * (10 : ℚ) ^ digitsVal expDs
        some ((if signed.1 then -scaled else scaled), cs4)

mutual

/-- Recursive-descent JSON value parser (fuel-indexed). -/
def parseValue (fuel : Nat) (cs : List Char) : Option (Json × List Char) :=
  match fuel with
  | 0 => none
  | f + 1 =>
    match skipWs cs with
    | [] => none
    | c :: rest =>
      if c = 'n' then
        match rest with
        | 'u' :: 'l' :: 'l' :: r => some (.null, r)
        | _ => none
      else if c = 't' then
        match rest with
        | 'r' :: 'u' :: 'e' :: r => some (.bool true, r)
        | _ => none
      else if c = 'f' then
        match rest with
        | 'a' :: 'l' :: 's' :: 'e' :: r => some (.bool false, r)
        | _ => none
      else if c = '"' then
        match parseStringBody (rest.length + 1) rest [] with
        | some (s, r) => some (.str s, r)
        | none => none
      else if c = '[' then
        match skipWs rest with
        | ']' :: r2 => some (.arr [], r2)
        | r1 => parseArrayItems f r1 []
      else if c = '\x7b' then
        match skipWs rest with
        | '\x7d' :: r2 => some (.obj [], r2)
        | r1 => parseObjectItems f r1 []
      else if c = '-' ∨ c.isDigit then
        match parseNumber (c :: rest) with
        | some (q, r) => some (.num q, r)
        | none => none
      else none

/-- Comma-separated array elements up to the closing bracket. -/
def parseArrayItems (fuel : Nat) (cs : List Char) (acc : List Json) :
    Option (Json × List Char) :=
  match fuel with
  | 0 => none
  | f + 1 =>
    match parseValue f cs with
    | none => none
    | some (v, r) =>
      match skipWs r with
      | ',' :: r2 => parseArrayItems f r2 (acc ++ [v])
      | ']' :: r2 => some (.arr (acc ++ [v]), r2)
      | _ => none

/-- Comma-separated object members up to the closing brace. -/
def parseObjectItems (fuel : Nat) (cs : List Char) (acc : List (String × Json)) :
    Option (Json × List Char) :=
  match fuel with
  | 0 => none
  | f + 1 =>
    match skipWs cs with
    | '"' :: r =>
      match parseStringBody (r.length + 1) r [] with
      | none => none
      | some (k, r1) =>
        match skipWs r1 with
        | ':' :: r2 =>
          match parseValue f r2 with
          | none => none
          | some (v, r3) =>
            match skipWs r3 with
            | ',' :: r4 => parseObjectItems f r4 (Json.setField acc k v)
            | '\x7d' :: r4 => some (.obj (Json.setField acc k v), r4)
            | _ => none
        | _ => none
    | _ => none

end

/-- Model of JSON.parse: parse one JSON value, demanding that only
whitespace follows it; returns none exactly when JSON.parse throws. -/
def jsonParse (s : String) : Option Json :=
  match parseValue (2 * s.data.length + 8) s.data with
  | some (v, rest) => if (skipWs rest).isEmpty then some v else none
  | none => none

/-- The whitespace class of the JS String.prototype.trim. -/
def isJsTrimWs (c : Char) : Bool :=
  c = ' ' || c = '\t' || c = '\n' || c = '\r' || c = Char.ofNat 11 || c = Char.ofNat 12

/-- Drop leading JS whitespace. -/
def trimLeftChars (l : List Char) : List Char := l.dropWhile isJsTrimWs

/-- Drop trailing JS whitespace. -/
def trimRightChars (l : List Char) : List Char :=
  (l.reverse.dropWhile isJsTrimWs).reverse

/-- Model of the JS text.trim() call in generateStory. -/
def jsTrim (s : String) : String := ⟨trimRightChars (trimLeftChars s.data)⟩

/-- The opening markdown fence with trailing newline, as characters. -/
def openFenceN : List Char := "```json\n".data

/-- The opening markdown fence without trailing newline. -/
def openFence : List Char := "```json".data

/-- Model of text.replace applied to the anchored pattern that deletes a
leading fence marker with optional newline (the regex is greedy, so the
newline variant is tried first). -/
def stripFenceOpen (l : List Char) : List Char :=
  if l.take 8 = openFenceN then l.drop 8
  else if l.take 7 = openFence then l.drop 7
  else l

/-- The closing fence preceded by a newline, reversed. -/
def closeFenceRevN : List Char := "\n```".data.reverse

/-- The closing fence alone, reversed. -/
def closeFenceRev : List Char := "```".data.reverse

/-- Helper on the reversed character list for the trailing-fence strip. -/
def stripFenceCloseRevAux (r : List Char) : List Char :=
  if r.take 4 = closeFenceRevN then r.drop 4
  else if r.take 3 = closeFenceRev then r.drop 3
  else r

/-- Model of text.replace applied to the anchored pattern that deletes a
trailing fence marker with optional preceding newline. -/
def stripFenceClose (l : List Char) : List Char :=
  (stripFenceCloseRevAux l.reverse).reverse

/-- The cleanText step of generateStory: strip a leading fenced-json
marker, then a trailing fence. -/
def cleanFences (s : String) : String :=
  ⟨stripFenceClose (stripFenceOpen s.data)⟩

/-- The parsing tail of generateStory: trim the response text, strip the
markdown fences, and JSON.parse the result; the catch branch converts any
parse exception into the fixed service error.  The source performs no
further validation: the parsed value is returned under an unchecked
TypeScript cast (JSON.parse(cleanText) as ScenePayload). -/
def parseStoryResponse (text : String) : Except String Json :=
  match jsonParse (cleanFences (jsTrim text)) with
  | some v => Except.ok v
  | none => Except.error "Received an invalid story format from the AI."

/-- Wrapping a response text in the extraneous markdown delimiters that
the backend sometimes emits (the behavior named in the source comment). -/
def wrapMarkdown (s : String) : String := "```json\n" ++ s ++ "\n```"

/-- The constructed service client (new GoogleGenAI with the key). -/
structure GoogleGenAI where
  apiKey : String
deriving DecidableEq

/-- The module-level credential check and client construction at the top
of the service file: if process.env.API_KEY is JS-falsy (the variable is
unset, or set to the empty string) the module throws before the client
is built; otherwise the client ai is constructed with the key. -/
def initAi (env : String → Option String) : Except String GoogleGenAI :=
  match env "API_KEY" with
  | none => Except.error "API_KEY environment variable is not set."
  | some k =>
    if k = "" then Except.error "API_KEY environment variable is not set."
    else Except.ok ⟨k⟩

/-- The fixed introductory scenario content used on the first turn. -/
def introContent : String :=
  "Start the game. The player\x27s colonization shuttle has just crash-landed. They are the sole survivor amidst the wreckage on the red, dusty plains of Mars. The main cylindrical body of the shuttle seems mostly intact and could serve as a starting shelter. What is their first move?"

/-- The content of the narrative request in generateStory: the fixed
introductory scenario when history is the empty string (JS-falsy),
otherwise the composed prompt embedding the prior narrative and the
player chosen action. -/
def contentFor (history choice : String) : String :=
  if history = "" then introContent
  else
    "Here is the story so far:\n" ++ history ++ "\n\nThe player chose to: \"" ++
      choice ++ "\".\n\nContinue the story. What happens next?"

/-- A network request issued by the story service layer; the model
records requests in a trace so that sequencing claims are statable. -/
inductive NetEvent where
  | storyRequest (content : String)
  | imageRequest (prompt : String)
deriving DecidableEq

/-- Model of generateStory: issue the narrative request with the content
selected from history/choice; the backend outcome is the prescribed
backendResult (error = rejected network call, ok text = the response
text); on success the text is trimmed, fence-stripped and JSON.parsed,
with no schema validation beyond JSON syntax. -/
def generateStory (backendResult : Except String String) (history choice : String) :
    Except String Json × List NetEvent :=
  let content := contentFor history choice
  match backendResult with
  | Except.error e => (Except.error e, [NetEvent.storyRequest content])
  | Except.ok text => (parseStoryResponse text, [NetEvent.storyRequest content])

/-- The nested image holder of a generated image (item.image.imageBytes). -/
structure ImageHolder where
  imageBytes : String
deriving DecidableEq

/-- One generated image of the image backend response. -/
structure GeneratedImage where
  image : ImageHolder
deriving DecidableEq

/-- The image backend response: the generatedImages list may be absent
(undefined) which the source guards with a truthiness check. -/
structure ImagesResponse where
  generatedImages : Option (List GeneratedImage)
deriving DecidableEq

/-- JS template-literal coercion of a possibly-undefined JSON value to a
string, used for the prompt parameter of generateImage.  String values
pass through unchanged and an absent value prints as undefined; every
schema-conformant payload supplies a string, so the numeric and array
stringification details of JS are not needed on any claim path and are
abbreviated here. -/
def jsDisplayString (v : Option Json) : String :=
  match v with
  | some (Json.str s) => s
  | some Json.null => "null"
  | some (Json.bool true) => "true"
  | some (Json.bool false) => "false"
  | some (Json.num _) => "[number]"
  | some (Json.arr _) => "[array]"
  | some (Json.obj _) => "[object Object]"
  | none => "undefined"

/-- Model of generateImage: issue the image request with the prompt plus
the fixed stylistic suffix; on a fulfilled response, succeed with a data
URI of the first generated image when at least one exists, otherwise
throw the fixed error; a rejected call propagates its error. -/
def generateImage (backendResult : Except String ImagesResponse) (prompt : Option Json) :
    Except String String × List NetEvent :=
  let fullPrompt := jsDisplayString prompt ++ ", on the planet Mars, sci-fi, realistic"
  (match backendResult with
   | Except.error e => Except.error e
   | Except.ok resp =>
     match resp.generatedImages with
     | some (first :: _) =>
       Except.ok ("data:image/jpeg;base64," ++ first.image.imageBytes)
     | _ => Except.error "Failed to generate an image.",
   [NetEvent.imageRequest fullPrompt])

/-- The object spread in fetchNextScene: all payload fields, then the
imageUrl property (overwriting an existing imageUrl field in place, per
JS object-literal semantics). -/
def spreadWithImageUrl (payload : Json) (imageUrl : String) : Json :=
  match payload with
  | Json.obj fields => Json.obj (Json.setField fields "imageUrl" (Json.str imageUrl))
  | _ => Json.obj [("imageUrl", Json.str imageUrl)]

/-- Model of fetchNextScene: await generateStory, then await
generateImage on the payload imagePrompt field, then return the payload
spread together with the imageUrl; an error at either step aborts and
propagates unchanged, and a narrative error means the image request is
never issued (the trace stops after the story request). -/
def fetchNextScene (storyBackend : Except String String)
    (imageBackend : Except String ImagesResponse) (history choice : String) :
    Except String Json × List NetEvent :=
  match generateStory storyBackend history choice with
  | (Except.error e, tr) => (Except.error e, tr)
  | (Except.ok payload, tr) =>
    match generateImage imageBackend (payload.getField "imagePrompt") with
    | (Except.error e, tr2) => (Except.error e, tr ++ tr2)
    | (Except.ok imageUrl, tr2) =>
      (Except.ok (spreadWithImageUrl payload imageUrl), tr ++ tr2)

/-- The game lifecycle states of types.ts. -/
inductive GameState where
  | START
  | LOADING
  | PLAYING
  | GAME_OVER
  | ERROR
deriving DecidableEq

/-- A 3-component vector with x, y, z coordinates. -/
structure Vec3 where
  x : ℚ
  y : ℚ
  z : ℚ
deriving DecidableEq

/-- A placed habitat part, as in types.ts.  The TypeScript declaration
restricts partType to a union of four string literals, but the union is
erased at runtime and part data originates in unvalidated backend JSON,
so the runtime value is modelled as an arbitrary string (which is what
the renderer switch with its default branch handles). -/
structure HabitatPart where
  id : String
  partType : String
  position : Vec3
  rotation : Vec3
  scale : Vec3
deriving DecidableEq

/-- A habitat update descriptor: a HabitatPart without the id. -/
structure HabitatUpdate where
  partType : String
  position : Vec3
  rotation : Vec3
  scale : Vec3
deriving DecidableEq

/-- The typed scene payload of types.ts. -/
structure ScenePayload where
  story : String
  imagePrompt : String
  choices : List String
  newItem : Option String
  gameOver : Bool
  habitatUpdate : Option HabitatUpdate
deriving DecidableEq

/-- A scene: payload plus the resolved image reference. -/
structure Scene extends ScenePayload where
  imageUrl : String
deriving DecidableEq

/-- A story log entry of types.ts. -/
structure StoryLogEntry where
  id : Nat
  story : String
deriving DecidableEq

/-- The choice buttons GameUI renders, as the list of choice strings the
player can click: the main panel shows the loading text while loading,
shows nothing without a scene, and renders the choice grid only under
the guard scene.choices.length > 0 and not scene.gameOver. -/
def choiceButtons (isLoading : Bool) (scene : Option Scene) : List String :=
  if isLoading then []
  else
    match scene with
    | none => []
    | some s => if 0 < s.choices.length ∧ s.gameOver = false then s.choices else []

/-- A three.js geometry as constructed by HabitatViewer.  Dimensions are
exact rationals; the four sphere angles are stored as rational multiples
of pi (the source only passes 0, 2*pi and pi/2). -/
inductive BufferGeometry where
  | cylinderGeometry (radiusTop radiusBottom height : ℚ) (radialSegments : Nat)
  | sphereGeometry (radius : ℚ) (widthSegments heightSegments : Nat)
      (phiStartPi phiLengthPi thetaStartPi thetaLengthPi : ℚ)
  | boxGeometry (width height depth : ℚ)
deriving DecidableEq

/-- A mesh in the scene graph: geometry plus the transform copied from
the part. -/
structure Mesh where
  geometry : BufferGeometry
  position : Vec3
  rotation : Vec3
  scale : Vec3
deriving DecidableEq

/-- An object of the three.js scene graph managed by HabitatViewer. -/
inductive SceneObject where
  | ambientLight (color : Nat) (intensity : ℚ)
  | directionalLight (color : Nat) (intensity : ℚ) (position : Vec3)
  | meshObject (mesh : Mesh)
deriving DecidableEq

/-- The scene graph right after the mount effect: the two lights added
by the setup code (children of the THREE.Scene, in insertion order). -/
def initialScene : List SceneObject :=
  [SceneObject.ambientLight 0xffffff 0.5,
   SceneObject.directionalLight 0xffffff 1 ⟨5, 10, 7.5⟩]

/-- The clearing loop of the parts effect: while the scene has more than
two children, remove the child at index 2 (keeping the first two, the
lights). -/
def clearParts : List SceneObject → List SceneObject
  | a :: b :: _ :: rest => clearParts (a :: b :: rest)
  | l => l
termination_by l => l.length

/-- The geometry switch of the parts effect: a recognized partType
selects its fixed geometry, the default branch selects none (the part is
skipped). -/
def partGeometry (partType : String) : Option BufferGeometry :=
  if partType = "CYLINDER" then some (BufferGeometry.cylinderGeometry 0.5 0.5 1 32)
  else if partType = "DOME" then some (BufferGeometry.sphereGeometry 0.5 32 16 0 2 0 0.5)
  else if partType = "TUBE" then some (BufferGeometry.cylinderGeometry 0.2 0.2 1 24)
  else if partType = "AIRLOCK" then some (BufferGeometry.boxGeometry 0.4 0.6 0.4)
  else none

/-- The mesh built for one part: its geometry from the switch, and
position, rotation and scale set exactly from the part vectors; none
when the switch hits the default branch. -/
def partMesh (p : HabitatPart) : Option Mesh :=
  match partGeometry p.partType with
  | some g => some ⟨g, p.position, p.rotation, p.scale⟩
  | none => none

/-- The scene objects appended by the forEach over the part list, one
mesh per recognized part, in list order. -/
def renderedMeshes (parts : List HabitatPart) : List SceneObject :=
  parts.filterMap fun p => (partMesh p).map SceneObject.meshObject

/-- One run of the parts effect: clear all children past the first two,
then append a mesh for every recognized part of the full current list. -/
def reconcile (children : List SceneObject) (parts : List HabitatPart) :
    List SceneObject :=
  clearParts children ++ renderedMeshes parts

/-- The scene graph after a sequence of part-list updates delivered to
the renderer, starting from the freshly mounted scene. -/
def applyUpdates (updates : List (List HabitatPart)) : List SceneObject :=
  updates.foldl reconcile initialScene

/-- The recognized part types of the closed enumeration. -/
def recognizedPartTypes : List String := ["CYLINDER", "DOME", "TUBE", "AIRLOCK"]

/-- Follows the words of the spec (refinement reference, not the source):
a JSON value is a valid ScenePayload when every required field is present
with the right type, choices is an array of strings that is empty only if
gameOver is true, and habitatUpdate is null or an object with a
recognized partType and three numeric x,y,z vectors. -/
def specValidVec3 (j : Json) : Bool :=
  (match j.getField "x" with | some (Json.num _) => true | _ => false) &&
  (match j.getField "y" with | some (Json.num _) => true | _ => false) &&
  (match j.getField "z" with | some (Json.num _) => true | _ => false)

/-- Follows the words of the spec (refinement reference, not the source):
validity of the habitatUpdate object. -/
def specValidHabitatUpdate (j : Json) : Bool :=
  (match j.getField "partType" with
   | some (Json.str t) => recognizedPartTypes.contains t
   | _ => false) &&
  (match j.getField "position" with | some v => specValidVec3 v | none => false) &&
  (match j.getField "rotation" with | some v => specValidVec3 v | none => false) &&
  (match j.getField "scale" with | some v => specValidVec3 v | none => false)

/-- Follows the words of the spec (refinement reference, not the source):
validity of a parsed ScenePayload, as the tagged validated construction
the spec asks for. -/
def specValidScenePayload (j : Json) : Bool :=
  (match j with | Json.obj _ => true | _ => false) &&
  (match j.getField "story" with | some (Json.str _) => true | _ => false) &&
  (match j.getField "imagePrompt" with | some (Json.str _) => true | _ => false) &&
  (match j.getField "choices", j.getField "gameOver" with
   | some (Json.arr items), some (Json.bool go) =>
     items.all (fun it => match it with | Json.str _ => true | _ => false) &&
     (!items.isEmpty || go)
   | _, _ => false) &&
  (match j.getField "newItem" with | some (Json.str _) => true | _ => false) &&
  (match j.getField "habitatUpdate" with
   | some Json.null => true
   | some (Json.obj fs) => specValidHabitatUpdate (Json.obj fs)
   | _ => false)

/-- A terminal scene that still carries a non-empty choices list. -/
def demoGameOverScene : Scene :=
  ⟨⟨"You did not survive the night.", "a dust storm at dawn",
    ["Keep going", "Look around"], none, true, none⟩, "data:image/jpeg;base64,AAA"⟩

/-- The crashed lander: a CYLINDER at the origin, unrotated, unit scale. -/
def landerPart : HabitatPart :=
  ⟨"part-0", "CYLINDER", ⟨0, 0, 0⟩, ⟨0, 0, 0⟩, ⟨1, 1, 1⟩⟩

/-- A part whose partType is outside the recognized enumeration. -/
def unknownPart : HabitatPart :=
  ⟨"part-9", "SPHERE", ⟨1, 0, 0⟩, ⟨0, 0, 0⟩, ⟨1, 1, 1⟩⟩

/-- A well-formed structured backend response text (no numeric fields, so
kernel evaluation stays in the string fragment of the parser). -/
def demoStoryText : String :=
  "\x7b\"story\":\"You crawl from the wreck.\",\"imagePrompt\":\"a broken lander on red dunes\",\"choices\":[\"Salvage\",\"Rest\"],\"newItem\":\"\",\"gameOver\":false,\"habitatUpdate\":null\x7d"

/-- The payload JSON.parse yields for demoStoryText. -/
def demoPayload : Json :=
  Json.obj
    [("story", Json.str "You crawl from the wreck."),
     ("imagePrompt", Json.str "a broken lander on red dunes"),
     ("choices", Json.arr [Json.str "Salvage", Json.str "Rest"]),
     ("newItem", Json.str ""),
     ("gameOver", Json.bool false),
     ("habitatUpdate", Json.null)]

/-- An image backend outcome holding exactly one generated image. -/
def demoImagesOk : Except String ImagesResponse :=
  Except.ok ⟨some [⟨⟨"QUFB"⟩⟩]⟩

/-- The scene object fetchNextScene returns for demoStoryText and
demoImagesOk: the payload fields unchanged, with imageUrl appended. -/
def demoSceneJson : Json :=
  Json.obj
    [("story", Json.str "You crawl from the wreck."),
     ("imagePrompt", Json.str "a broken lander on red dunes"),
     ("choices", Json.arr [Json.str "Salvage", Json.str "Rest"]),
     ("newItem", Json.str ""),
     ("gameOver", Json.bool false),
     ("habitatUpdate", Json.null),
     ("imageUrl", Json.str "data:image/jpeg;base64,QUFB")]

example : jsonParse "\x7b\x7d" = some (Json.obj []) := by rfl

example : jsonParse "\x7b\"a\":null\x7d" = some (Json.obj [("a", Json.null)]) := by rfl

example : jsonParse "[true, false]" = some (Json.arr [Json.bool true, Json.bool false]) := by rfl

example : jsonParse "\x7b" = none := by rfl

example : cleanFences (jsTrim (wrapMarkdown "\x7b\x7d")) = "\x7b\x7d" := by rfl

/-- Claim C2: for every Scene with gameOver equal to true, the UI
presents no choice buttons to the player, even when the scene choices
array is non-empty. -/
theorem gameOver_suppresses_choices (isLoading : Bool) (s : Scene)
    (h : s.gameOver = true) : choiceButtons isLoading (some s) = [] := by
  unfold choiceButtons
  cases isLoading with
  | true => rfl
  | false => simp [h]

/-- Witness for C2 at a concrete terminal scene whose choices list is
non-empty. -/
theorem gameOver_suppresses_choices_witness :
    choiceButtons false (some demoGameOverScene) = [] ∧
    demoGameOverScene.choices = ["Keep going", "Look around"] :=
  ⟨gameOver_suppresses_choices false demoGameOverScene rfl, rfl⟩

/-- Claim C8: generateStory issues exactly one narrative request; its
content is the fixed introductory scenario when history is empty (and
contains no player choice text, being a fixed constant), and otherwise
the composed prompt embedding the prior narrative and the chosen action
text. -/
theorem generateStory_content (backendResult : Except String String)
    (history choice : String) :
    (generateStory backendResult history choice).2 =
      [NetEvent.storyRequest (contentFor history choice)] ∧
    (history = "" → contentFor history choice = introContent) ∧
    (history ≠ "" → contentFor history choice =
      "Here is the story so far:\n" ++ history ++ "\n\nThe player chose to: \"" ++
        choice ++ "\".\n\nContinue the story. What happens next?") := by
  refine ⟨?_, ?_, ?_⟩
  · cases backendResult <;> rfl
  · intro h; simp [contentFor, h]
  · intro h; simp [contentFor, h]

/-- Witness for C8: the first turn uses the fixed introduction, a later
turn embeds both the prior narrative and the chosen action. -/
theorem generateStory_content_witness :
    contentFor "" "anything" = introContent ∧
    contentFor "The lander smokes." "Explore" =
      "Here is the story so far:\nThe lander smokes.\n\nThe player chose to: \"Explore\".\n\nContinue the story. What happens next?" :=
  ⟨(generateStory_content (Except.ok "") "" "anything").2.1 rfl,
   (generateStory_content (Except.ok "") "The lander smokes." "Explore").2.2
     (by decide)⟩

/-- Claim C9: when the API credential is absent from the process
environment, module initialization fails with the fixed error before any
service client is constructed, so no client value is ever produced. -/
theorem missing_api_key_fatal (env : String → Option String)
    (h : env "API_KEY" = none) :
    initAi env = Except.error "API_KEY environment variable is not set." ∧
    ∀ client, initAi env ≠ Except.ok client := by
  constructor
  · unfold initAi; rw [h]
  · intro client hc
    unfold initAi at hc; rw [h] at hc
    cases hc

/-- Witness for C9 at the empty environment. -/
theorem missing_api_key_fatal_witness :
    initAi (fun _ => none) = Except.error "API_KEY environment variable is not set." ∧
    ∀ client, initAi (fun _ => none) ≠ Except.ok client :=
  missing_api_key_fatal (fun _ => none) rfl

/-- The clearing loop keeps exactly the first two children, whatever
follows them. -/
theorem clearParts_cons_cons (x y : SceneObject) (l : List SceneObject) :
    clearParts (x :: y :: l) = [x, y] := by
  induction l with
  | nil => simp [clearParts]
  | cons c rest ih => rw [clearParts]; exact ih

/-- One run of the parts effect on a scene whose first two children are
the lights: every previously added object is removed and one mesh per
recognized part is appended. -/
theorem reconcile_head (old : List SceneObject) (parts : List HabitatPart) :
    reconcile (initialScene ++ old) parts = initialScene ++ renderedMeshes parts := by
  show clearParts (initialScene ++ old) ++ renderedMeshes parts = _
  rw [show initialScene ++ old =
        SceneObject.ambientLight 0xffffff 0.5 ::
          SceneObject.directionalLight 0xffffff 1 ⟨5, 10, 7.5⟩ :: old from rfl,
      clearParts_cons_cons]
  rfl

/-- Every foldl of reconcile runs keeps the two lights at the head of
the scene graph. -/
theorem foldl_reconcile_shape (updates : List (List HabitatPart)) :
    ∀ old : List SceneObject, ∃ rest,
      updates.foldl reconcile (initialScene ++ old) = initialScene ++ rest := by
  induction updates with
  | nil => intro old; exact ⟨old, rfl⟩
  | cons ps us ih =>
    intro old
    rw [List.foldl_cons, reconcile_head]
    exact ih (renderedMeshes ps)

/-- The scene graph reached by any update sequence has the two lights at
its head. -/
theorem applyUpdates_shape (updates : List (List HabitatPart)) :
    ∃ rest, applyUpdates updates = initialScene ++ rest := by
  have h := foldl_reconcile_shape updates []
  rwa [List.append_nil] at h

/-- Claim C3: each reconciliation removes all previously rendered
part-meshes but never the two lights, and rebuilds one mesh per
recognized part of the full current list in list order; hence after
every update of any update sequence the scene graph is exactly the two
lights followed by one mesh per recognized current part (full replace). -/
theorem reconcile_full_replace :
    (∀ (old : List SceneObject) (parts : List HabitatPart),
      reconcile (initialScene ++ old) parts = initialScene ++ renderedMeshes parts) ∧
    (∀ (updates : List (List HabitatPart)) (parts : List HabitatPart),
      applyUpdates (updates ++ [parts]) = initialScene ++ renderedMeshes parts) := by
  constructor
  · exact reconcile_head
  · intro updates parts
    unfold applyUpdates
    rw [List.foldl_append]
    obtain ⟨rest, hrest⟩ := applyUpdates_shape updates
    unfold applyUpdates at hrest
    rw [hrest, List.foldl_cons, List.foldl_nil]
    exact reconcile_head rest parts

/-- Claim C4: the mesh geometry is determined solely by partType under
the fixed mapping (CYLINDER: cylinder radius 0.5 height 1; DOME:
hemisphere of radius 0.5, i.e. a sphere cut at theta of half pi; TUBE:
cylinder radius 0.2 height 1; AIRLOCK: box 0.4 by 0.6 by 0.4), the mesh
transform is copied exactly from the part vectors, and the concrete
lander scenario produces exactly one origin-placed unrotated unit-scale
cylinder mesh of radius 0.5 and height 1 after the lights. -/
theorem partMesh_geometry (p : HabitatPart) :
    (p.partType = "CYLINDER" → partMesh p =
      some ⟨BufferGeometry.cylinderGeometry 0.5 0.5 1 32, p.position, p.rotation, p.scale⟩) ∧
    (p.partType = "DOME" → partMesh p =
      some ⟨BufferGeometry.sphereGeometry 0.5 32 16 0 2 0 0.5, p.position, p.rotation, p.scale⟩) ∧
    (p.partType = "TUBE" → partMesh p =
      some ⟨BufferGeometry.cylinderGeometry 0.2 0.2 1 24, p.position, p.rotation, p.scale⟩) ∧
    (p.partType = "AIRLOCK" → partMesh p =
      some ⟨BufferGeometry.boxGeometry 0.4 0.6 0.4, p.position, p.rotation, p.scale⟩) ∧
    reconcile initialScene [landerPart] =
      initialScene ++
        [SceneObject.meshObject
          ⟨BufferGeometry.cylinderGeometry 0.5 0.5 1 32, ⟨0, 0, 0⟩, ⟨0, 0, 0⟩, ⟨1, 1, 1⟩⟩] := by
  refine ⟨?_, ?_, ?_, ?_, ?_⟩
  · intro h; simp [partMesh, partGeometry, h]
  · intro h; simp [partMesh, partGeometry, h]
  · intro h; simp [partMesh, partGeometry, h]
  · intro h; simp [partMesh, partGeometry, h]
  · have h1 : clearParts initialScene = initialScene := clearParts_cons_cons _ _ []
    show clearParts initialScene ++ renderedMeshes [landerPart] = _
    rw [h1]
    rfl

/-- Witness for C4 at the crashed-lander part. -/
theorem partMesh_geometry_witness :
    partMesh landerPart =
      some ⟨BufferGeometry.cylinderGeometry 0.5 0.5 1 32, ⟨0, 0, 0⟩, ⟨0, 0, 0⟩, ⟨1, 1, 1⟩⟩ :=
  (partMesh_geometry landerPart).1 rfl

/-- Claim C5: a part whose partType is outside the recognized
enumeration is skipped (the model is a total function, so no exception
is possible): it contributes no mesh, and the reconciled scene graph is
the same with or without it. -/
theorem unknown_partType_skipped (children : List SceneObject)
    (pre post : List HabitatPart) (p : HabitatPart)
    (h : p.partType ∉ recognizedPartTypes) :
    partMesh p = none ∧
    reconcile children (pre ++ p :: post) = reconcile children (pre ++ post) := by
  simp only [recognizedPartTypes, List.mem_cons, List.mem_singleton, not_or] at h
  have hm : partMesh p = none := by
    unfold partMesh partGeometry
    rw [if_neg h.1, if_neg h.2.1, if_neg h.2.2.1, if_neg h.2.2.2.1]
  refine ⟨hm, ?_⟩
  unfold reconcile renderedMeshes
  simp [List.filterMap_append, List.filterMap_cons, hm]

/-- Witness for C5 at a SPHERE-typed part added after the lander. -/
theorem unknown_partType_skipped_witness :
    partMesh unknownPart = none ∧
    reconcile initialScene [landerPart, unknownPart] =
      reconcile initialScene [landerPart] :=
  unknown_partType_skipped initialScene [landerPart] [] unknownPart (by decide)

/-- Claim C6: fetchNextScene performs exactly the two sub-steps in
sequence, narrative first, then one image request built from the
narrative payload imagePrompt, with no retry: a narrative failure means
the image request is never issued and the error propagates as the single
rejection; an image-step failure (including an ok response with zero
generated images, which raises the fixed error) aborts with that error. -/
theorem fetchNextScene_two_steps (sr : Except String String)
    (ir : Except String ImagesResponse) (history choice : String) :
    (∀ e, (generateStory sr history choice).1 = Except.error e →
      fetchNextScene sr ir history choice =
        (Except.error e, [NetEvent.storyRequest (contentFor history choice)])) ∧
    (∀ p, (generateStory sr history choice).1 = Except.ok p →
      (fetchNextScene sr ir history choice).2 =
        [NetEvent.storyRequest (contentFor history choice),
         NetEvent.imageRequest (jsDisplayString (p.getField "imagePrompt") ++
           ", on the planet Mars, sci-fi, realistic")]) ∧
    (∀ p e, (generateStory sr history choice).1 = Except.ok p →
      (generateImage ir (p.getField "imagePrompt")).1 = Except.error e →
      (fetchNextScene sr ir history choice).1 = Except.error e) ∧
    (∀ resp prompt, ir = Except.ok resp →
      (resp.generatedImages = none ∨ resp.generatedImages = some []) →
      (generateImage ir prompt).1 = Except.error "Failed to generate an image.") := by
  refine ⟨?_, ?_, ?_, ?_⟩
  · intro e he
    cases sr with
    | error e0 =>
      simp [generateStory] at he
      subst he
      rfl
    | ok text =>
      simp [generateStory] at he
      simp [fetchNextScene, generateStory, he]
  · intro p hp
    cases sr with
    | error e0 => simp [generateStory] at hp
    | ok text =>
      simp [generateStory] at hp
      cases ir with
      | error e2 => simp [fetchNextScene, generateStory, hp, generateImage]
      | ok resp =>
        obtain ⟨gi⟩ := resp
        rcases gi with _ | (_ | ⟨img, rest⟩) <;>
          simp [fetchNextScene, generateStory, hp, generateImage]
  · intro p e hp hi
    cases sr with
    | error e0 => simp [generateStory] at hp
    | ok text =>
      simp [generateStory] at hp
      cases ir with
      | error e2 =>
        simp [generateImage] at hi
        subst hi
        simp [fetchNextScene, generateStory, hp, generateImage]
      | ok resp =>
        obtain ⟨gi⟩ := resp
        rcases gi with _ | (_ | ⟨img, rest⟩) <;>
          simp [generateImage] at hi <;>
          (try subst hi) <;>
          simp [fetchNextScene, generateStory, hp, generateImage]
  · intro resp prompt hir hz
    subst hir
    rcases hz with h0 | h0 <;> simp [generateImage, h0]

set_option maxRecDepth 8000 in
/-- Witness for C6: a concrete failed narrative call issues no image
request; a concrete successful run issues exactly the two requests in
order; a fulfilled image response with zero images raises the fixed
error. -/
theorem fetchNextScene_two_steps_witness :
    fetchNextScene (Except.error "network down") demoImagesOk "" "" =
      (Except.error "network down", [NetEvent.storyRequest (contentFor "" "")]) ∧
    (fetchNextScene (Except.ok demoStoryText) demoImagesOk "" "").2 =
      [NetEvent.storyRequest (contentFor "" ""),
       NetEvent.imageRequest (jsDisplayString (demoPayload.getField "imagePrompt") ++
         ", on the planet Mars, sci-fi, realistic")] ∧
    (generateImage (Except.ok ⟨some []⟩) (some (Json.str "p"))).1 =
      Except.error "Failed to generate an image." :=
  ⟨(fetchNextScene_two_steps (Except.error "network down") demoImagesOk "" "").1
      "network down" rfl,
   (fetchNextScene_two_steps (Except.ok demoStoryText) demoImagesOk "" "").2.1
      demoPayload (by rfl),
   (fetchNextScene_two_steps (Except.ok demoStoryText) (Except.ok ⟨some []⟩) "" "").2.2.2
      ⟨some []⟩ (some (Json.str "p")) rfl (Or.inr rfl)⟩

/-- Updating a key and reading it back yields the new value. -/
theorem lookupField_setField_self (fs : List (String × Json)) (k : String) (v : Json) :
    Json.lookupField (Json.setField fs k v) k = some v := by
  induction fs with
  | nil => simp [Json.setField, Json.lookupField]
  | cons kv rest ih =>
    obtain ⟨k0, v0⟩ := kv
    by_cases h : k0 = k
    · simp [Json.setField, Json.lookupField, h]
    · simp [Json.setField, Json.lookupField, h, ih]

/-- Updating a key leaves every other key unchanged. -/
theorem lookupField_setField_ne (fs : List (String × Json)) (k k2 : String) (v : Json)
    (h : k2 ≠ k) :
    Json.lookupField (Json.setField fs k v) k2 = Json.lookupField fs k2 := by
  induction fs with
  | nil => simp [Json.setField, Json.lookupField, Ne.symm h]
  | cons kv rest ih =>
    obtain ⟨k0, v0⟩ := kv
    by_cases h0 : k0 = k
    · subst h0
      simp [Json.setField, Json.lookupField, Ne.symm h]
    · simp [Json.setField, Json.lookupField, h0, ih]

/-- The object spread only adds the imageUrl property: every other
property reads the same as on the payload. -/
theorem getField_spreadWithImageUrl (payload : Json) (url : String) :
    (∀ k, k ≠ "imageUrl" →
      (spreadWithImageUrl payload url).getField k = payload.getField k) ∧
    (spreadWithImageUrl payload url).getField "imageUrl" = some (Json.str url) := by
  have base : ∀ k : String, k ≠ "imageUrl" →
      Json.lookupField [("imageUrl", Json.str url)] k = none := by
    intro k hk
    simp [Json.lookupField, Ne.symm hk]
  cases payload with
  | obj fields =>
    refine ⟨?_, ?_⟩
    · intro k hk
      show Json.lookupField (Json.setField fields "imageUrl" (Json.str url)) k = _
      rw [lookupField_setField_ne fields "imageUrl" k (Json.str url) hk]
      rfl
    · exact lookupField_setField_self fields "imageUrl" (Json.str url)
  | null => exact ⟨fun k hk => base k hk, rfl⟩
  | bool b => exact ⟨fun k hk => base k hk, rfl⟩
  | num q => exact ⟨fun k hk => base k hk, rfl⟩
  | str s => exact ⟨fun k hk => base k hk, rfl⟩
  | arr elems => exact ⟨fun k hk => base k hk, rfl⟩

/-- Claim C10: a successful fetchNextScene returns exactly the parsed
backend payload with only the imageUrl field added: every payload
property reads unchanged on the returned scene, and imageUrl holds the
resolved image reference. -/
theorem fetchNextScene_frame (sr : Except String String)
    (ir : Except String ImagesResponse) (history choice : String)
    (j : Json) (tr : List NetEvent)
    (hok : fetchNextScene sr ir history choice = (Except.ok j, tr)) :
    ∃ payload url,
      (generateStory sr history choice).1 = Except.ok payload ∧
      (generateImage ir (payload.getField "imagePrompt")).1 = Except.ok url ∧
      j = spreadWithImageUrl payload url ∧
      (∀ k, k ≠ "imageUrl" → j.getField k = payload.getField k) ∧
      j.getField "imageUrl" = some (Json.str url) := by
  cases sr with
  | error e => simp [fetchNextScene, generateStory] at hok
  | ok text =>
    cases hp : parseStoryResponse text with
    | error e => simp [fetchNextScene, generateStory, hp] at hok
    | ok payload =>
      cases ir with
      | error e2 => simp [fetchNextScene, generateStory, generateImage, hp] at hok
      | ok resp =>
        obtain ⟨gi⟩ := resp
        rcases gi with _ | (_ | ⟨img, rest⟩)
        · simp [fetchNextScene, generateStory, generateImage, hp] at hok
        · simp [fetchNextScene, generateStory, generateImage, hp] at hok
        · simp [fetchNextScene, generateStory, generateImage, hp] at hok
          obtain ⟨hj, htr⟩ := hok
          refine ⟨payload, "data:image/jpeg;base64," ++ img.image.imageBytes,
            by simp [generateStory, hp], by simp [generateImage], ?_, ?_, ?_⟩
          · exact hj.symm
          · intro k hk
            rw [← hj]
            exact (getField_spreadWithImageUrl payload _).1 k hk
          · rw [← hj]
            exact (getField_spreadWithImageUrl payload _).2

set_option maxRecDepth 8000 in
/-- Witness for C10 at the concrete demo run. -/
theorem fetchNextScene_frame_witness :
    ∃ payload url,
      (generateStory (Except.ok demoStoryText) "" "").1 = Except.ok payload ∧
      (generateImage demoImagesOk (payload.getField "imagePrompt")).1 = Except.ok url ∧
      demoSceneJson = spreadWithImageUrl payload url ∧
      (∀ k, k ≠ "imageUrl" → demoSceneJson.getField k = payload.getField k) ∧
      demoSceneJson.getField "imageUrl" = some (Json.str url) :=
  fetchNextScene_frame (Except.ok demoStoryText) demoImagesOk "" "" demoSceneJson
    [NetEvent.storyRequest introContent,
     NetEvent.imageRequest "a broken lander on red dunes, on the planet Mars, sci-fi, realistic"]
    (by rfl)

/-- Claim C1 (amended): generateStory fails with the ServiceError exactly
when the trimmed, fence-stripped response text is not parseable as JSON;
it performs no schema validation, so any JSON-parseable payload is
returned as-is, whether or not it is a valid ScenePayload. -/
theorem generateStory_parse_only (text : String) :
    (∀ j, jsonParse (cleanFences (jsTrim text)) = some j →
      parseStoryResponse text = Except.ok j) ∧
    (jsonParse (cleanFences (jsTrim text)) = none →
      parseStoryResponse text =
        Except.error "Received an invalid story format from the AI.") := by
  constructor
  · intro j h; simp [parseStoryResponse, h]
  · intro h; simp [parseStoryResponse, h]

/-- Witness for the amended C1: a parseable response is returned as-is,
a non-JSON response raises the fixed service error. -/
theorem generateStory_parse_only_witness :
    parseStoryResponse "\x7b\x7d" = Except.ok (Json.obj []) ∧
    parseStoryResponse "not json" =
      Except.error "Received an invalid story format from the AI." :=
  ⟨(generateStory_parse_only "\x7b\x7d").1 (Json.obj []) rfl,
   (generateStory_parse_only "not json").2 rfl⟩

/-- Counterexample for C1 as stated: the response text of an empty JSON
object is JSON-parseable, so generateStory returns it as a payload with
no error, even though it misses every required ScenePayload field; the
parse step does not fail closed on schema violations, type mismatches,
the choices/gameOver coupling or unrecognized part types. -/
theorem generateStory_no_validation_cex :
    parseStoryResponse "\x7b\x7d" = Except.ok (Json.obj []) ∧
    specValidScenePayload (Json.obj []) = false :=
  ⟨rfl, rfl⟩

/-- String append acts as list append on the character data. -/
theorem strData_append (a b : String) : (a ++ b).data = a.data ++ b.data := rfl

/-- Leading-trim is the identity on a list starting with a
non-whitespace character. -/
theorem trimLeftChars_cons (c : Char) (l : List Char) (h : isJsTrimWs c = false) :
    trimLeftChars (c :: l) = c :: l := by
  simp [trimLeftChars, List.dropWhile_cons, h]

/-- Trailing-trim is the identity on a list ending with a non-whitespace
character. -/
theorem trimRightChars_append (l : List Char) (c : Char) (h : isJsTrimWs c = false) :
    trimRightChars (l ++ [c]) = l ++ [c] := by
  simp [trimRightChars, List.dropWhile_cons, h]

/-- The character data of a wrapped response. -/
theorem wrapMarkdown_data (t : String) :
    (wrapMarkdown t).data = "```json\n".data ++ t.data ++ "\n```".data := by
  simp [wrapMarkdown, strData_append]

/-- A wrapped response is already trimmed: it starts and ends with a
backtick. -/
theorem jsTrim_wrapMarkdown (t : String) : jsTrim (wrapMarkdown t) = wrapMarkdown t := by
  show (⟨trimRightChars (trimLeftChars (wrapMarkdown t).data)⟩ : String) = wrapMarkdown t
  have h1 : (wrapMarkdown t).data =
      '\x60' :: ("``json\n".data ++ t.data ++ "\n```".data) := by
    rw [wrapMarkdown_data]; rfl
  have h2 : (wrapMarkdown t).data =
      ("```json\n".data ++ t.data ++ "\n``".data) ++ ['\x60'] := by
    rw [wrapMarkdown_data]; simp
  have hL : trimLeftChars ((wrapMarkdown t).data) = (wrapMarkdown t).data := by
    rw [h1]; exact trimLeftChars_cons '\x60' _ (by decide)
  have hR : trimRightChars ((wrapMarkdown t).data) = (wrapMarkdown t).data := by
    rw [h2]; exact trimRightChars_append _ '\x60' (by decide)
  rw [hL, hR]

/-- Stripping the leading fence deletes exactly the prepended marker. -/
theorem stripFenceOpen_wrap (x : List Char) :
    stripFenceOpen ("```json\n".data ++ x) = x := by
  unfold stripFenceOpen
  rw [if_pos]
  · rw [show (8 : Nat) = ("```json\n".data).length from rfl, List.drop_left]
  · rw [show (8 : Nat) = ("```json\n".data).length from rfl, List.take_left]
    rfl

/-- Stripping the trailing fence deletes exactly the appended marker. -/
theorem stripFenceClose_wrap (x : List Char) :
    stripFenceClose (x ++ "\n```".data) = x := by
  unfold stripFenceClose stripFenceCloseRevAux
  rw [List.reverse_append]
  have hc : ("\n```".data).reverse = closeFenceRevN := rfl
  rw [hc, if_pos]
  · rw [show (4 : Nat) = closeFenceRevN.length from rfl, List.drop_left,
      List.reverse_reverse]
  · rw [show (4 : Nat) = closeFenceRevN.length from rfl, List.take_left]

/-- The cleaning pipeline of generateStory undoes the markdown wrapping
exactly. -/
theorem clean_trim_wrap (t : String) :
    cleanFences (jsTrim (wrapMarkdown t)) = t := by
  rw [jsTrim_wrapMarkdown]
  show (⟨stripFenceClose (stripFenceOpen (wrapMarkdown t).data)⟩ : String) = t
  rw [wrapMarkdown_data, List.append_assoc, stripFenceOpen_wrap, stripFenceClose_wrap]

/-- Claim C7: the delimiter-stripping step before JSON parsing is a left
inverse of wrapping in the extraneous markdown delimiters, so parsing a
wrapped response text yields the same result as parsing the bare text
whenever the pipeline leaves the bare text unchanged (as for any trimmed
unfenced response). -/
theorem parse_after_wrap (t : String) :
    cleanFences (jsTrim (wrapMarkdown t)) = t ∧
    (cleanFences (jsTrim t) = t →
      parseStoryResponse (wrapMarkdown t) = parseStoryResponse t) := by
  refine ⟨clean_trim_wrap t, ?_⟩
  intro h
  unfold parseStoryResponse
  rw [clean_trim_wrap t, h]

/-- Witness for C7 at a concrete well-formed response text. -/
theorem parse_after_wrap_witness :
    cleanFences (jsTrim (wrapMarkdown "\x7b\"ok\":true\x7d")) = "\x7b\"ok\":true\x7d" ∧
    parseStoryResponse (wrapMarkdown "\x7b\"ok\":true\x7d") =
      parseStoryResponse "\x7b\"ok\":true\x7d" :=
  ⟨(parse_after_wrap "\x7b\"ok\":true\x7d").1,
   (parse_after_wrap "\x7b\"ok\":true\x7d").2 (by rfl)⟩
